import Mathlib

/-
Shallow embedding of the fastapi-webpage repository
(src/fastapi_webpage/webpage.py and src/fastapi_webpage/error_middleware.py).

Python dictionaries are modelled as association lists of String-keyed
entries where a later entry shadows an earlier one: `dictGet` returns the
value of the LAST binding of a key, and `dict.update(patch)` is modelled by
list append.  This is observably identical to Python dict lookup semantics
after a sequence of updates (iteration order, which no claim depends on,
may differ).
-/

namespace FastapiWebpage

/-- A Python value as it appears in template contexts: None, int, str,
an opaque request object (identified by a number), or a dict. -/
inductive Val where
  | pynone : Val
  | int : Int → Val
  | str : String → Val
  | req : Nat → Val
  | dict : List (String × Val) → Val

/-- A Python dict, modelled as an association list where the last binding
of a key wins on lookup. -/
abbrev PyDict := List (String × Val)

/-- Lookup of a key in a dict: the value of the last binding, if any. -/
def dictGet : PyDict → String → Option Val
  | [], _ => Option.none
  | e :: rest, k =>
    match dictGet rest k with
    | Option.some v => Option.some v
    | Option.none => if e.1 = k then Option.some e.2 else Option.none

/-- Python `d.update(patch)`: every binding of `patch` overwrites the
binding of the same key in `d`; modelled by appending `patch`, which under
last-binding-wins lookup has exactly the update semantics. -/
def dictUpdate (d patch : PyDict) : PyDict := d ++ patch

theorem dictGet_append_some {p : PyDict} {k : String} {v : Val}
    (h : dictGet p k = Option.some v) (d : PyDict) :
    dictGet (d ++ p) k = Option.some v := by
  induction d with
  | nil => simpa using h
  | cons e rest ih =>
    simp only [List.cons_append, dictGet, List.append_eq, ih]

theorem dictGet_append_none {p : PyDict} {k : String}
    (h : dictGet p k = Option.none) (d : PyDict) :
    dictGet (d ++ p) k = dictGet d k := by
  induction d with
  | nil => simpa using h
  | cons e rest ih =>
    simp only [List.cons_append, dictGet, List.append_eq, ih]

theorem dictGet_update_some {p : PyDict} {k : String} {v : Val}
    (h : dictGet p k = Option.some v) (d : PyDict) :
    dictGet (dictUpdate d p) k = Option.some v :=
  dictGet_append_some h d

theorem dictGet_update_none {p : PyDict} {k : String}
    (h : dictGet p k = Option.none) (d : PyDict) :
    dictGet (dictUpdate d p) k = dictGet d k :=
  dictGet_append_none h d

/-- Truthiness of a Python value (`if value:`). -/
def Val.truthy : Val → Bool
  | Val.pynone => false
  | Val.int n => n != 0
  | Val.str s => s != ""
  | Val.req _ => true
  | Val.dict d => !d.isEmpty

/-- Python `isinstance(value, int)`. -/
def Val.isInt : Val → Bool
  | Val.int _ => true
  | _ => false

/-- The integer payload of an int value (only meaningful under `isInt`). -/
def Val.toInt : Val → Int
  | Val.int n => n
  | _ => 0

/-- Whether `sub` occurs at the start of `s` (on character lists). -/
def charsStart : List Char → List Char → Bool
  | _, [] => true
  | [], _ :: _ => false
  | c :: cs, d :: ds => c = d && charsStart cs ds

/-- Whether `sub` occurs anywhere in `s` (on character lists). -/
def charsContain : List Char → List Char → Bool
  | [], sub => sub.isEmpty
  | c :: cs, sub => charsStart (c :: cs) sub || charsContain cs sub

/-- Python substring containment `sub in s`. -/
def strContains (s sub : String) : Bool := charsContain s.data sub.data

/-- An absolute URL, as far as the URL rewriter observes it: a scheme and
the rest (host, path, ...), which `replace(scheme=...)` leaves untouched. -/
structure URL where
  scheme : String
  host : String
  path : String

/-- Starlette `URL.replace(scheme=s)`: replace the scheme, keep the rest. -/
def URL.replaceScheme (u : URL) (s : String) : URL :=
  { u with scheme := s }

/-- Lookup in a header multimap, as `request.headers.get(key)` does
(first matching entry). -/
def headersGet (hs : List (String × String)) (k : String) : Option String :=
  (hs.find? (fun e => e.1 = k)).map (fun e => e.2)

/-- The request object as seen by `urlx_for`: its headers and the
underlying framework primitive `request.url_for` (an oracle mapping a
route name and path parameters to the framework-generated URL). -/
structure Request where
  headers : List (String × String)
  urlFor : String → List (String × String) → URL

/-- Embedding of `urlx_for` (webpage.py lines 14-38): generate the URL via
`request.url_for`; if the request carries a truthy `x-forwarded-proto`
header (Python walrus `if scheme := ...` — the empty string is falsy),
replace the URL scheme with that header value. -/
def urlx_for (request : Request) (name : String)
    (path_params : List (String × String)) : URL :=
  let http_url := request.urlFor name path_params
  match headersGet request.headers "x-forwarded-proto" with
  | Option.some scheme =>
    if scheme = "" then http_url else http_url.replaceScheme scheme
  | Option.none => http_url

/-- The mutable state of a `WebPage` instance: `_webpage_context`
(SiteContext) and `_pre_context` (PreContext). -/
structure WebPage where
  webpage_context : PyDict
  pre_context : PyDict

/-- Embedding of `WebPage.pre_context_update` (webpage.py lines 72-86):
a dict is merged into `_pre_context`; anything else raises
`ValueError("The value need to be a dict")` and changes nothing. -/
def pre_context_update (wp : WebPage) (value : Val) : Except String WebPage :=
  match value with
  | Val.dict d =>
    Except.ok { wp with pre_context := dictUpdate wp.pre_context d }
  | _ => Except.error "The value need to be a dict"

/-- Embedding of `WebPage.webpage_context_update` (webpage.py lines
93-107): same contract, targets `_webpage_context`. -/
def webpage_context_update (wp : WebPage) (value : Val) : Except String WebPage :=
  match value with
  | Val.dict d =>
    Except.ok { wp with webpage_context := dictUpdate wp.webpage_context d }
  | _ => Except.error "The value need to be a dict"

/-- A rendered response as produced by
`Jinja2Templates.TemplateResponse`: the template name, the render
context handed to the template engine, the status code (the framework
default is 200 when none is given) and the response headers. -/
structure TemplateResponse where
  name : String
  context : PyDict
  status_code : Int
  headers : PyDict

/-- The context-update chain of `WebPage.__call__` (webpage.py lines
188-190), applied to the context dict the call starts from:
`context.update(request)`, then `context.update(self._pre_context)`,
then `context.update(webpage)`. -/
def call_context (wp : WebPage) (request : Nat) (context : PyDict) : PyDict :=
  dictUpdate
    (dictUpdate (dictUpdate context [("request", Val.req request)])
      wp.pre_context)
    [("webpage", Val.dict wp.webpage_context)]

/-- The statement `if kargs.get("status_code") and isinstance(..., int):
wp_response.status_code = ...` of `WebPage.__call__` (line 194-195). -/
def apply_status_karg (wp_response : TemplateResponse)
    (kargs_status_code : Option Val) : TemplateResponse :=
  match kargs_status_code with
  | Option.some v =>
    if v.truthy && v.isInt then { wp_response with status_code := v.toInt }
    else wp_response
  | Option.none => wp_response

/-- The statement `if kargs.get("headers") and isinstance(..., dict):
wp_response.headers.update(...)` of `WebPage.__call__` (line 196-197). -/
def apply_headers_karg (wp_response : TemplateResponse)
    (kargs_headers : Option Val) : TemplateResponse :=
  match kargs_headers with
  | Option.some v =>
    match v with
    | Val.dict hd =>
      if v.truthy then
        { wp_response with headers := dictUpdate wp_response.headers hd }
      else wp_response
    | _ => wp_response
  | Option.none => wp_response

/-- Embedding of `WebPage.__call__` (webpage.py lines 167-198): build the
render context, build a `TemplateResponse` (default status 200), then set
`status_code` only if the keyword is truthy AND an int, and merge the
`headers` keyword only if it is truthy AND a dict. -/
def webpage_call (wp : WebPage) (template_file : String) (request : Nat)
    (context : PyDict) (kargs_status_code : Option Val)
    (kargs_headers : Option Val) : TemplateResponse :=
  let ctx := call_context wp request context
  let wp_response : TemplateResponse :=
    { name := template_file, context := ctx, status_code := 200, headers := [] }
  apply_headers_karg (apply_status_karg wp_response kargs_status_code)
    kargs_headers

/-- The context-update chain of the `dict()` branch of `WebPage.page`
(webpage.py lines 138-146): the handler-returned dict is updated with the
reserved keys, then with `self._pre_context`. -/
def page_context (wp : WebPage) (request : Nat) (context : PyDict)
    (css_timestamp : String) : PyDict :=
  dictUpdate
    (dictUpdate context
      [("request", Val.req request),
       ("webpage", Val.dict wp.webpage_context),
       ("css_timestamp", Val.str css_timestamp)])
    wp.pre_context

/-- What the wrapped handler of `WebPage.page` returned, after awaiting:
an already-built response, a dict, or anything else. -/
inductive HandlerResult where
  | resp : TemplateResponse → HandlerResult
  | dict : PyDict → HandlerResult
  | other : Val → HandlerResult

/-- An `HTTPException` raised inside the `wrap` closure of `WebPage.page`:
either the bare 500 for a missing `request` keyword, or the 500 whose
detail carries the `error_msgs` list naming the offending handler. -/
inductive PageError where
  | missing_request : PageError
  | bad_return : Int → List String → PageError

/-- Embedding of the `wrap` closure of `WebPage.page` (webpage.py lines
126-163): fail if no `request` keyword was passed; return an
already-built `Response` unchanged; render a returned dict through
`page_context` with the decorator's template and status code; fail with
an `HTTPException(500)` carrying the handler's name on anything else.
The awaited handler result and the `str(int(time.time()))` timestamp are
oracle inputs. -/
def page_wrap (wp : WebPage) (template_file : String) (status_code : Int)
    (func_name : String) (func_code : String) (request : Option Nat)
    (result : HandlerResult) (css_timestamp : String) :
    Except PageError TemplateResponse :=
  match request with
  | Option.none => Except.error PageError.missing_request
  | Option.some req =>
    match result with
    | HandlerResult.resp r => Except.ok r
    | HandlerResult.dict context =>
      Except.ok
        { name := template_file,
          context := page_context wp req context css_timestamp,
          status_code := status_code, headers := [] }
    | HandlerResult.other _ =>
      Except.error
        (PageError.bad_return 500
          ["套用到 @Webpage().page() 的函式，必須回傳 dict。",
           "function name: " ++ func_name,
           "info: " ++ func_code])

/-- A response produced by one of the three error handlers of
`register_error_handlers`: either a `JSONResponse` with a status code and
a JSON body dict, or a rendered HTML error page. -/
inductive ErrorResponse where
  | json : Int → PyDict → ErrorResponse
  | html : TemplateResponse → ErrorResponse

/-- The request as the error handlers observe it: its `accept` header
value (absent is read as `""`) and the opaque request object passed on to
the template. -/
structure ErrReq where
  accept : String
  id : Nat

/-- Embedding of `http_exception_handler` (error_middleware.py lines
23-46): if the accept header contains the substring
`application/json`, answer a `JSONResponse` with the exception's status
code and detail; otherwise render the error template through the
`WebPage` direct call with the exception's status code and detail as
context and as the `status_code` keyword. -/
def http_exception_handler (wp : WebPage) (error_templ_file : String)
    (request : ErrReq) (exc_status_code : Int) (exc_detail : Val) :
    ErrorResponse :=
  if strContains request.accept "application/json" then
    ErrorResponse.json exc_status_code [("detail", exc_detail)]
  else
    ErrorResponse.html
      (webpage_call wp error_templ_file request.id
        [("status_code", Val.int exc_status_code), ("detail", exc_detail)]
        (Option.some (Val.int exc_status_code)) Option.none)

/-- Embedding of `validation_exception_handler` (error_middleware.py
lines 48-69): JSON clients get status 422 with the
`jsonable_encoder(exc.errors())` value (the oracle input `exc_errors`) as
detail; everyone else gets the rendered error page with status 422 and
`str(exc)` (the oracle input `exc_str`) as detail. -/
def validation_exception_handler (wp : WebPage) (error_templ_file : String)
    (request : ErrReq) (exc_errors : Val) (exc_str : String) : ErrorResponse :=
  if strContains request.accept "application/json" then
    ErrorResponse.json 422 [("detail", exc_errors)]
  else
    ErrorResponse.html
      (webpage_call wp error_templ_file request.id
        [("status_code", Val.int 422), ("detail", Val.str exc_str)]
        (Option.some (Val.int 422)) Option.none)

/-- Embedding of `global_exception_handler` (error_middleware.py lines
71-89): the caught exception (its message is the parameter `exc_message`)
is never inspected; both branches answer status 500 with the literal
detail string Internal Server Error. -/
def global_exception_handler (wp : WebPage) (error_templ_file : String)
    (request : ErrReq) (exc_message : String) : ErrorResponse :=
  if strContains request.accept "application/json" then
    ErrorResponse.json 500 [("detail", Val.str "Internal Server Error")]
  else
    ErrorResponse.html
      (webpage_call wp error_templ_file request.id
        [("status_code", Val.int 500),
         ("detail", Val.str "Internal Server Error")]
        (Option.some (Val.int 500)) Option.none)

theorem apply_status_karg_context (resp : TemplateResponse) (v : Option Val) :
    (apply_status_karg resp v).context = resp.context := by
  rcases v with _ | w
  · rfl
  · simp only [apply_status_karg]
    split <;> rfl

theorem apply_status_karg_name (resp : TemplateResponse) (v : Option Val) :
    (apply_status_karg resp v).name = resp.name := by
  rcases v with _ | w
  · rfl
  · simp only [apply_status_karg]
    split <;> rfl

theorem apply_headers_karg_status (resp : TemplateResponse) (v : Option Val) :
    (apply_headers_karg resp v).status_code = resp.status_code := by
  rcases v with _ | w
  · rfl
  · rcases w with _ | n | s | i | hd <;> try rfl
    simp only [apply_headers_karg]
    split <;> rfl

theorem apply_headers_karg_context (resp : TemplateResponse) (v : Option Val) :
    (apply_headers_karg resp v).context = resp.context := by
  rcases v with _ | w
  · rfl
  · rcases w with _ | n | s | i | hd <;> try rfl
    simp only [apply_headers_karg]
    split <;> rfl

theorem apply_headers_karg_name (resp : TemplateResponse) (v : Option Val) :
    (apply_headers_karg resp v).name = resp.name := by
  rcases v with _ | w
  · rfl
  · rcases w with _ | n | s | i | hd <;> try rfl
    simp only [apply_headers_karg]
    split <;> rfl

theorem webpage_call_context (wp : WebPage) (t : String) (r : Nat)
    (ctx : PyDict) (s h : Option Val) :
    (webpage_call wp t r ctx s h).context = call_context wp r ctx := by
  simp [webpage_call, apply_headers_karg_context, apply_status_karg_context]

theorem webpage_call_name (wp : WebPage) (t : String) (r : Nat)
    (ctx : PyDict) (s h : Option Val) :
    (webpage_call wp t r ctx s h).name = t := by
  simp [webpage_call, apply_headers_karg_name, apply_status_karg_name]

theorem webpage_call_status (wp : WebPage) (t : String) (r : Nat)
    (ctx : PyDict) (s h : Option Val) :
    (webpage_call wp t r ctx s h).status_code =
      (apply_status_karg
        { name := t, context := call_context wp r ctx, status_code := 200,
          headers := [] } s).status_code := by
  simp [webpage_call, apply_headers_karg_status]

/-- C6: `urlx_for` returns the framework-generated URL unchanged when the
request carries no forwarded-protocol header, and with the header set to
`https` it replaces only the scheme of the generated URL `http://host/path`,
yielding `https://host/path`. -/
theorem urlx_for_proxy_scheme (request : Request) (name : String)
    (path_params : List (String × String)) (host path : String) :
    (headersGet request.headers "x-forwarded-proto" = Option.none →
      urlx_for request name path_params = request.urlFor name path_params) ∧
    (headersGet request.headers "x-forwarded-proto" = Option.some "https" →
      request.urlFor name path_params = URL.mk "http" host path →
      urlx_for request name path_params = URL.mk "https" host path) := by
  constructor
  · intro h
    simp [urlx_for, h]
  · intro h hu
    simp [urlx_for, h, hu, URL.replaceScheme]

theorem urlx_for_proxy_scheme_witness :
    urlx_for
        (Request.mk [("x-forwarded-proto", "https")]
          (fun _ _ => URL.mk "http" "example.com" "/a")) "home" []
      = URL.mk "https" "example.com" "/a" ∧
    urlx_for (Request.mk [] (fun _ _ => URL.mk "http" "example.com" "/a"))
        "home" []
      = URL.mk "http" "example.com" "/a" :=
  ⟨(urlx_for_proxy_scheme
      (Request.mk [("x-forwarded-proto", "https")]
        (fun _ _ => URL.mk "http" "example.com" "/a")) "home" []
      "example.com" "/a").2 rfl rfl,
   (urlx_for_proxy_scheme
      (Request.mk [] (fun _ _ => URL.mk "http" "example.com" "/a")) "home" []
      "example.com" "/a").1 rfl⟩

/-- C8: a dict patch is merged into the targeted context with the patch's
keys overwriting existing entries and every other key (and the other
context) unchanged; a non-dict value makes the update fail with the
`ValueError` and leaves both contexts completely unchanged. -/
theorem context_update_contract (wp : WebPage) (value : Val) :
    (∀ d : PyDict, value = Val.dict d →
      pre_context_update wp value =
        Except.ok { wp with pre_context := dictUpdate wp.pre_context d } ∧
      webpage_context_update wp value =
        Except.ok { wp with webpage_context := dictUpdate wp.webpage_context d } ∧
      (∀ k, dictGet (dictUpdate wp.pre_context d) k =
        match dictGet d k with
        | Option.some v => Option.some v
        | Option.none => dictGet wp.pre_context k) ∧
      (∀ k, dictGet (dictUpdate wp.webpage_context d) k =
        match dictGet d k with
        | Option.some v => Option.some v
        | Option.none => dictGet wp.webpage_context k)) ∧
    ((∀ d : PyDict, value ≠ Val.dict d) →
      pre_context_update wp value = Except.error "The value need to be a dict" ∧
      webpage_context_update wp value = Except.error "The value need to be a dict") := by
  constructor
  · intro d h
    subst h
    refine ⟨rfl, rfl, ?_, ?_⟩
    · intro k
      cases h' : dictGet d k with
      | none => simpa [h'] using dictGet_update_none h' wp.pre_context
      | some v => simpa [h'] using dictGet_update_some h' wp.pre_context
    · intro k
      cases h' : dictGet d k with
      | none => simpa [h'] using dictGet_update_none h' wp.webpage_context
      | some v => simpa [h'] using dictGet_update_some h' wp.webpage_context
  · intro h
    rcases value with _ | n | s | i | d
    · exact ⟨rfl, rfl⟩
    · exact ⟨rfl, rfl⟩
    · exact ⟨rfl, rfl⟩
    · exact ⟨rfl, rfl⟩
    · exact absurd rfl (h d)

theorem context_update_contract_witness :
    pre_context_update (WebPage.mk [] []) (Val.str "x")
      = Except.error "The value need to be a dict" ∧
    webpage_context_update (WebPage.mk [("a", Val.int 1)] [])
        (Val.dict [("a", Val.int 2)])
      = Except.ok (WebPage.mk (dictUpdate [("a", Val.int 1)] [("a", Val.int 2)]) []) :=
  ⟨((context_update_contract (WebPage.mk [] []) (Val.str "x")).2
      (fun _ h => Val.noConfusion h)).1,
   (((context_update_contract (WebPage.mk [("a", Val.int 1)] [])
      (Val.dict [("a", Val.int 2)])).1 [("a", Val.int 2)] rfl).2).1⟩

/-- C10: the direct-call response status code equals the `status_code`
keyword exactly when that keyword is a truthy (non-zero) integer; an
absent, zero, or non-integer keyword is silently ignored and the status
code is the default 200. -/
theorem call_status_code_contract (wp : WebPage) (t : String) (r : Nat)
    (ctx : PyDict) (hdrs : Option Val) :
    (∀ n : Int, n ≠ 0 →
      (webpage_call wp t r ctx (Option.some (Val.int n)) hdrs).status_code = n) ∧
    (webpage_call wp t r ctx Option.none hdrs).status_code = 200 ∧
    (webpage_call wp t r ctx (Option.some (Val.int 0)) hdrs).status_code = 200 ∧
    (∀ v : Val, v.isInt = false →
      (webpage_call wp t r ctx (Option.some v) hdrs).status_code = 200) := by
  refine ⟨?_, ?_, ?_, ?_⟩
  · intro n hn
    simp [webpage_call_status, apply_status_karg, Val.truthy, Val.isInt,
      Val.toInt, hn]
  · simp [webpage_call_status, apply_status_karg]
  · simp [webpage_call_status, apply_status_karg, Val.truthy]
  · intro v hv
    simp [webpage_call_status, apply_status_karg, hv]

theorem call_status_code_contract_witness :
    (webpage_call (WebPage.mk [] []) "t.jinja2" 1 []
      (Option.some (Val.int 404)) Option.none).status_code = 404 ∧
    (webpage_call (WebPage.mk [] []) "t.jinja2" 1 []
      (Option.some (Val.str "500")) Option.none).status_code = 200 :=
  ⟨(call_status_code_contract (WebPage.mk [] []) "t.jinja2" 1 []
      Option.none).1 404 (by decide),
   (call_status_code_contract (WebPage.mk [] []) "t.jinja2" 1 []
      Option.none).2.2.2 (Val.str "500") rfl⟩

theorem dictGet_singleton_ne (k k' : String) (v : Val) (h : k ≠ k') :
    dictGet [(k', v)] k = Option.none := by
  simp [dictGet, Ne.symm h]

theorem call_context_get (wp : WebPage) (r : Nat) (ctx : PyDict) (k : String)
    (hw : k ≠ "webpage") (hr : k ≠ "request")
    (hpre : dictGet wp.pre_context k = Option.none) :
    dictGet (call_context wp r ctx) k = dictGet ctx k := by
  unfold call_context
  rw [dictGet_update_none (dictGet_singleton_ne k "webpage" _ hw),
    dictGet_update_none hpre,
    dictGet_update_none (dictGet_singleton_ne k "request" _ hr)]

theorem call_context_get_webpage (wp : WebPage) (r : Nat) (ctx : PyDict) :
    dictGet (call_context wp r ctx) "webpage"
      = Option.some (Val.dict wp.webpage_context) := by
  unfold call_context
  exact dictGet_update_some
    (show dictGet [("webpage", Val.dict wp.webpage_context)] "webpage"
      = Option.some (Val.dict wp.webpage_context) from rfl) _

theorem call_context_get_request (wp : WebPage) (r : Nat) (ctx : PyDict)
    (hpre : dictGet wp.pre_context "request" = Option.none) :
    dictGet (call_context wp r ctx) "request" = Option.some (Val.req r) := by
  unfold call_context
  rw [dictGet_update_none
      (dictGet_singleton_ne "request" "webpage" _ (by decide)),
    dictGet_update_none hpre]
  exact dictGet_update_some
    (show dictGet [("request", Val.req r)] "request"
      = Option.some (Val.req r) from rfl) _

theorem page_context_get (wp : WebPage) (r : Nat) (ctx : PyDict)
    (css : String) (k : String)
    (hr : k ≠ "request") (hw : k ≠ "webpage") (hc : k ≠ "css_timestamp")
    (hpre : dictGet wp.pre_context k = Option.none) :
    dictGet (page_context wp r ctx css) k = dictGet ctx k := by
  unfold page_context
  rw [dictGet_update_none hpre]
  have hres : dictGet
      [("request", Val.req r), ("webpage", Val.dict wp.webpage_context),
       ("css_timestamp", Val.str css)] k = Option.none := by
    simp [dictGet, Ne.symm hr, Ne.symm hw, Ne.symm hc]
  rw [dictGet_update_none hres]

theorem page_context_get_request (wp : WebPage) (r : Nat) (ctx : PyDict)
    (css : String)
    (hpre : dictGet wp.pre_context "request" = Option.none) :
    dictGet (page_context wp r ctx css) "request" = Option.some (Val.req r) := by
  unfold page_context
  rw [dictGet_update_none hpre]
  exact dictGet_update_some
    (show dictGet
        [("request", Val.req r), ("webpage", Val.dict wp.webpage_context),
         ("css_timestamp", Val.str css)] "request"
      = Option.some (Val.req r) from rfl) _

theorem page_context_get_webpage (wp : WebPage) (r : Nat) (ctx : PyDict)
    (css : String)
    (hpre : dictGet wp.pre_context "webpage" = Option.none) :
    dictGet (page_context wp r ctx css) "webpage"
      = Option.some (Val.dict wp.webpage_context) := by
  unfold page_context
  rw [dictGet_update_none hpre]
  exact dictGet_update_some
    (show dictGet
        [("request", Val.req r), ("webpage", Val.dict wp.webpage_context),
         ("css_timestamp", Val.str css)] "webpage"
      = Option.some (Val.dict wp.webpage_context) from rfl) _

/-- C1: refuted on the code — the Python default argument `context` of
`WebPage.__call__` (webpage.py line 171) is one shared dict object,
mutated in place by the `context.update(...)` calls of every direct call
that omits `context`; the render context of such a call is therefore
neither local to the call nor discarded.  This def chains two successive
direct calls that omit `context` (the default belongs to the function
object, so even calls on different `WebPage` instances share it) and
returns the second call's render context. -/
def call_context_default_twice (wp1 wp2 : WebPage) (r1 r2 : Nat) : PyDict :=
  call_context wp2 r2 (call_context wp1 r1 [])

/-- C1: a direct call on a `WebPage` whose PreContext binds `x`, followed
by a direct call on a fresh `WebPage` with empty contexts, both omitting
the `context` argument: the second call's render context still contains
the first call's `x` entry, whereas a render context local to the second
call (second conjunct) would not contain `x` at all. -/
theorem render_context_not_local :
    dictGet
        (call_context_default_twice (WebPage.mk [] [("x", Val.int 1)])
          (WebPage.mk [] []) 1 2) "x"
      = Option.some (Val.int 1) ∧
    dictGet (call_context (WebPage.mk [] []) 2 []) "x" = Option.none :=
  ⟨rfl, rfl⟩

/-- C2 counterexample: with PreContext binding `webpage` and the caller
context also binding `webpage`, the direct-call render context maps
`webpage` to the SiteContext snapshot, not to the PreContext value, so
PreContext does not always win over caller data for every shared key. -/
theorem precontext_precedence_counterexample :
    dictGet
        (call_context (WebPage.mk [] [("webpage", Val.str "preval")]) 0
          [("webpage", Val.str "callerval")]) "webpage"
      = Option.some (Val.dict []) ∧
    dictGet
        (call_context (WebPage.mk [] [("webpage", Val.str "preval")]) 0
          [("webpage", Val.str "callerval")]) "webpage"
      ≠ Option.some (Val.str "preval") :=
  ⟨rfl, fun h => Val.noConfusion (Option.some.inj h)⟩

/-- C2 amended: for any key bound in PreContext (and possibly also in the
caller or handler context), the decorator-form render context maps it to
the PreContext value unconditionally, and the direct-call render context
does so for every key except the reserved key `webpage`, which the
direct-call form rebinds to the SiteContext snapshot after merging
PreContext. -/
theorem precontext_precedence (wp : WebPage) (r : Nat) (ctx : PyDict)
    (css : String) (k : String) (v : Val)
    (hpre : dictGet wp.pre_context k = Option.some v) :
    dictGet (page_context wp r ctx css) k = Option.some v ∧
    (k ≠ "webpage" → dictGet (call_context wp r ctx) k = Option.some v) ∧
    dictGet (call_context wp r ctx) "webpage"
      = Option.some (Val.dict wp.webpage_context) := by
  refine ⟨dictGet_update_some hpre _, ?_, call_context_get_webpage wp r ctx⟩
  intro hk
  unfold call_context
  rw [dictGet_update_none (dictGet_singleton_ne k "webpage" _ hk)]
  exact dictGet_update_some hpre _

theorem precontext_precedence_witness :
    dictGet
        (page_context (WebPage.mk [] [("title", Val.str "pre")]) 3
          [("title", Val.str "caller")] "111") "title"
      = Option.some (Val.str "pre") ∧
    dictGet
        (call_context (WebPage.mk [] [("title", Val.str "pre")]) 3
          [("title", Val.str "caller")]) "title"
      = Option.some (Val.str "pre") :=
  ⟨(precontext_precedence (WebPage.mk [] [("title", Val.str "pre")]) 3
      [("title", Val.str "caller")] "111" "title" (Val.str "pre") rfl).1,
   (precontext_precedence (WebPage.mk [] [("title", Val.str "pre")]) 3
      [("title", Val.str "caller")] "111" "title" (Val.str "pre") rfl).2.1
     (by decide)⟩

/-- C3 counterexample: when PreContext itself binds the key `request`,
the decorator-form render context maps `request` to the PreContext value,
not to the injected request object, so the claim as stated (the final
context always maps `request` to the injected request) fails. -/
theorem reserved_keys_counterexample :
    dictGet
        (page_context (WebPage.mk [] [("request", Val.str "evil")]) 7
          [("request", Val.str "caller")] "111") "request"
      = Option.some (Val.str "evil") ∧
    dictGet
        (page_context (WebPage.mk [] [("request", Val.str "evil")]) 7
          [("request", Val.str "caller")] "111") "request"
      ≠ Option.some (Val.req 7) :=
  ⟨rfl, fun h => Val.noConfusion (Option.some.inj h)⟩

/-- C3 amended: provided PreContext itself binds neither `request` nor
`webpage`, a caller (or handler) context binding those keys never
survives: in both the decorator form and the direct-call form the final
render context maps `request` to the injected request object and
`webpage` to the SiteContext snapshot. -/
theorem reserved_keys (wp : WebPage) (r : Nat) (ctx : PyDict) (css : String)
    (h1 : dictGet wp.pre_context "request" = Option.none)
    (h2 : dictGet wp.pre_context "webpage" = Option.none) :
    dictGet (page_context wp r ctx css) "request" = Option.some (Val.req r) ∧
    dictGet (page_context wp r ctx css) "webpage"
      = Option.some (Val.dict wp.webpage_context) ∧
    dictGet (call_context wp r ctx) "request" = Option.some (Val.req r) ∧
    dictGet (call_context wp r ctx) "webpage"
      = Option.some (Val.dict wp.webpage_context) :=
  ⟨page_context_get_request wp r ctx css h1,
   page_context_get_webpage wp r ctx css h2,
   call_context_get_request wp r ctx h1,
   call_context_get_webpage wp r ctx⟩

theorem reserved_keys_witness :
    dictGet
        (page_context (WebPage.mk [("site", Val.int 9)] []) 5
          [("request", Val.str "caller"), ("webpage", Val.str "caller")] "111")
        "request"
      = Option.some (Val.req 5) ∧
    dictGet
        (call_context (WebPage.mk [("site", Val.int 9)] []) 5
          [("request", Val.str "caller"), ("webpage", Val.str "caller")])
        "webpage"
      = Option.some (Val.dict [("site", Val.int 9)]) :=
  ⟨(reserved_keys (WebPage.mk [("site", Val.int 9)] []) 5
      [("request", Val.str "caller"), ("webpage", Val.str "caller")] "111"
      rfl rfl).1,
   (reserved_keys (WebPage.mk [("site", Val.int 9)] []) 5
      [("request", Val.str "caller"), ("webpage", Val.str "caller")] "111"
      rfl rfl).2.2.2⟩

/-- C4: Category A content negotiation for a caught HTTP exception with
status 404 and detail `not found`: a request whose accept header contains
`application/json` gets a JSON response with body mapping `detail` to
`not found` and status 404; a request whose accept header does not (such
as `text/html`) gets the rendered error template with status 404 and a
render context carrying `status_code` 404 and `detail` `not found`
(provided PreContext does not itself rebind those two keys). -/
theorem http_exception_negotiation (wp : WebPage) (t : String)
    (reqJson reqHtml : ErrReq)
    (hj : strContains reqJson.accept "application/json" = true)
    (hh : strContains reqHtml.accept "application/json" = false)
    (h1 : dictGet wp.pre_context "status_code" = Option.none)
    (h2 : dictGet wp.pre_context "detail" = Option.none) :
    http_exception_handler wp t reqJson 404 (Val.str "not found")
      = ErrorResponse.json 404 [("detail", Val.str "not found")] ∧
    (∃ resp : TemplateResponse,
      http_exception_handler wp t reqHtml 404 (Val.str "not found")
        = ErrorResponse.html resp ∧
      resp.name = t ∧
      resp.status_code = 404 ∧
      dictGet resp.context "status_code" = Option.some (Val.int 404) ∧
      dictGet resp.context "detail" = Option.some (Val.str "not found")) := by
  constructor
  · simp [http_exception_handler, hj]
  · refine ⟨webpage_call wp t reqHtml.id
      [("status_code", Val.int 404), ("detail", Val.str "not found")]
      (Option.some (Val.int 404)) Option.none, ?_, ?_, ?_, ?_, ?_⟩
    · simp [http_exception_handler, hh]
    · exact webpage_call_name wp t reqHtml.id _ _ _
    · rw [webpage_call_status]
      rfl
    · rw [webpage_call_context,
        call_context_get wp reqHtml.id _ "status_code" (by decide) (by decide)
          h1]
      rfl
    · rw [webpage_call_context,
        call_context_get wp reqHtml.id _ "detail" (by decide) (by decide) h2]
      rfl

theorem http_exception_negotiation_witness :
    http_exception_handler (WebPage.mk [] []) "error.jinja2"
        (ErrReq.mk "application/json" 1) 404 (Val.str "not found")
      = ErrorResponse.json 404 [("detail", Val.str "not found")] ∧
    (∃ resp : TemplateResponse,
      http_exception_handler (WebPage.mk [] []) "error.jinja2"
          (ErrReq.mk "text/html" 2) 404 (Val.str "not found")
        = ErrorResponse.html resp ∧
      resp.name = "error.jinja2" ∧
      resp.status_code = 404 ∧
      dictGet resp.context "status_code" = Option.some (Val.int 404) ∧
      dictGet resp.context "detail" = Option.some (Val.str "not found")) :=
  http_exception_negotiation (WebPage.mk [] []) "error.jinja2"
    (ErrReq.mk "application/json" 1) (ErrReq.mk "text/html" 2)
    (by decide) (by decide) rfl rfl

/-- C5: the global handler for unexpected exceptions never depends on the
caught exception's message: any two messages produce equal responses; the
JSON branch answers status 500 with detail the literal string Internal
Server Error, and the HTML branch renders the error template with status
500 and that same literal detail in its context (the detail clause of the
HTML branch provided PreContext does not rebind `detail`). -/
theorem global_handler_no_leak (wp : WebPage) (t : String) (r : ErrReq)
    (m1 m2 : String)
    (h1 : dictGet wp.pre_context "detail" = Option.none) :
    global_exception_handler wp t r m1 = global_exception_handler wp t r m2 ∧
    (strContains r.accept "application/json" = true →
      global_exception_handler wp t r m1
        = ErrorResponse.json 500
            [("detail", Val.str "Internal Server Error")]) ∧
    (strContains r.accept "application/json" = false →
      ∃ resp : TemplateResponse,
        global_exception_handler wp t r m1 = ErrorResponse.html resp ∧
        resp.name = t ∧
        resp.status_code = 500 ∧
        dictGet resp.context "detail"
          = Option.some (Val.str "Internal Server Error")) := by
  refine ⟨rfl, ?_, ?_⟩
  · intro hj
    simp [global_exception_handler, hj]
  · intro hh
    refine ⟨webpage_call wp t r.id
      [("status_code", Val.int 500),
       ("detail", Val.str "Internal Server Error")]
      (Option.some (Val.int 500)) Option.none, ?_, ?_, ?_, ?_⟩
    · simp [global_exception_handler, hh]
    · exact webpage_call_name wp t r.id _ _ _
    · rw [webpage_call_status]
      rfl
    · rw [webpage_call_context,
        call_context_get wp r.id _ "detail" (by decide) (by decide) h1]
      rfl

theorem global_handler_no_leak_witness :
    global_exception_handler (WebPage.mk [] []) "error.jinja2"
        (ErrReq.mk "application/json" 1) "boom"
      = ErrorResponse.json 500 [("detail", Val.str "Internal Server Error")] ∧
    global_exception_handler (WebPage.mk [] []) "error.jinja2"
        (ErrReq.mk "text/html" 2) "boom"
      = global_exception_handler (WebPage.mk [] []) "error.jinja2"
          (ErrReq.mk "text/html" 2) "totally different message" :=
  ⟨(global_handler_no_leak (WebPage.mk [] []) "error.jinja2"
      (ErrReq.mk "application/json" 1) "boom" "x" rfl).2.1 (by decide),
   (global_handler_no_leak (WebPage.mk [] []) "error.jinja2"
      (ErrReq.mk "text/html" 2) "boom" "totally different message" rfl).1⟩

/-- C9: Category B handling of a request validation failure: a request
whose accept header contains `application/json` gets a JSON response with
status 422 whose detail is the structured list of validation error
objects; any other request gets the rendered error template with status
422 whose render context detail is the failure's string representation
(the context clauses provided PreContext does not rebind those keys). -/
theorem validation_negotiation (wp : WebPage) (t : String)
    (reqJson reqHtml : ErrReq) (exc_errors : Val) (exc_str : String)
    (hj : strContains reqJson.accept "application/json" = true)
    (hh : strContains reqHtml.accept "application/json" = false)
    (h1 : dictGet wp.pre_context "status_code" = Option.none)
    (h2 : dictGet wp.pre_context "detail" = Option.none) :
    validation_exception_handler wp t reqJson exc_errors exc_str
      = ErrorResponse.json 422 [("detail", exc_errors)] ∧
    (∃ resp : TemplateResponse,
      validation_exception_handler wp t reqHtml exc_errors exc_str
        = ErrorResponse.html resp ∧
      resp.name = t ∧
      resp.status_code = 422 ∧
      dictGet resp.context "status_code" = Option.some (Val.int 422) ∧
      dictGet resp.context "detail" = Option.some (Val.str exc_str)) := by
  constructor
  · simp [validation_exception_handler, hj]
  · refine ⟨webpage_call wp t reqHtml.id
      [("status_code", Val.int 422), ("detail", Val.str exc_str)]
      (Option.some (Val.int 422)) Option.none, ?_, ?_, ?_, ?_, ?_⟩
    · simp [validation_exception_handler, hh]
    · exact webpage_call_name wp t reqHtml.id _ _ _
    · rw [webpage_call_status]
      rfl
    · rw [webpage_call_context,
        call_context_get wp reqHtml.id _ "status_code" (by decide) (by decide)
          h1]
      rfl
    · rw [webpage_call_context,
        call_context_get wp reqHtml.id _ "detail" (by decide) (by decide) h2]
      rfl

theorem validation_negotiation_witness :
    validation_exception_handler (WebPage.mk [] []) "error.jinja2"
        (ErrReq.mk "application/json" 1)
        (Val.dict [("loc", Val.str "body")]) "1 validation error"
      = ErrorResponse.json 422
          [("detail", Val.dict [("loc", Val.str "body")])] ∧
    (∃ resp : TemplateResponse,
      validation_exception_handler (WebPage.mk [] []) "error.jinja2"
          (ErrReq.mk "text/html" 2)
          (Val.dict [("loc", Val.str "body")]) "1 validation error"
        = ErrorResponse.html resp ∧
      resp.name = "error.jinja2" ∧
      resp.status_code = 422 ∧
      dictGet resp.context "status_code" = Option.some (Val.int 422) ∧
      dictGet resp.context "detail"
        = Option.some (Val.str "1 validation error")) :=
  validation_negotiation (WebPage.mk [] []) "error.jinja2"
    (ErrReq.mk "application/json" 1) (ErrReq.mk "text/html" 2)
    (Val.dict [("loc", Val.str "body")]) "1 validation error"
    (by decide) (by decide) rfl rfl

/-- C7: dispatch on the awaited handler result inside the decorator
wrapper: any result that is neither a dict nor a response fails with the
500 `HTTPException` whose detail names the handler; an already-built
response object is returned exactly as it is, with no context merging and
no rendering. -/
theorem page_wrap_dispatch (wp : WebPage) (t : String) (sc : Int)
    (fname fcode : String) (req : Nat) (css : String) :
    (∀ v : Val,
      page_wrap wp t sc fname fcode (Option.some req)
          (HandlerResult.other v) css
        = Except.error (PageError.bad_return 500
            ["套用到 @Webpage().page() 的函式，必須回傳 dict。",
             "function name: " ++ fname,
             "info: " ++ fcode])) ∧
    (∀ r : TemplateResponse,
      page_wrap wp t sc fname fcode (Option.some req)
          (HandlerResult.resp r) css
        = Except.ok r) :=
  ⟨fun _ => rfl, fun _ => rfl⟩

theorem page_wrap_dispatch_witness :
    page_wrap (WebPage.mk [] []) "t.jinja2" 200 "handler" "code"
        (Option.some 1) (HandlerResult.other (Val.int 3)) "111"
      = Except.error (PageError.bad_return 500
          ["套用到 @Webpage().page() 的函式，必須回傳 dict。",
           "function name: " ++ "handler",
           "info: " ++ "code"]) ∧
    page_wrap (WebPage.mk [] []) "t.jinja2" 200 "handler" "code"
        (Option.some 1) (HandlerResult.resp (TemplateResponse.mk "x" [] 204 []))
        "111"
      = Except.ok (TemplateResponse.mk "x" [] 204 []) :=
  ⟨(page_wrap_dispatch (WebPage.mk [] []) "t.jinja2" 200 "handler" "code" 1
      "111").1 (Val.int 3),
   (page_wrap_dispatch (WebPage.mk [] []) "t.jinja2" 200 "handler" "code" 1
      "111").2 (TemplateResponse.mk "x" [] 204 [])⟩

end FastapiWebpage
